import Mathlib

/-!
Verification of the access-token acquisition-and-cache subsystem of the
`dingtalk` Rust crate (files `src/core.rs`, `src/organization.rs`,
`src/lib.rs`).

The effectful Rust functions are shallowly embedded as pure Lean functions:
the Redis store is explicit state (`Store`), the pooled-connection
acquisitions and the GET / SET transport outcomes are explicit boolean
oracles (`StoreOps`), and the remote token issuer's HTTP answer is an
explicit oracle (`HttpResult`).  A Rust `.unwrap()` on a failed operation
is modelled by the `Outcome.panicked` constructor, `Err(..)` by
`Outcome.err`, and `Ok(..)` by `Outcome.ok`.  The `serde_json`
serialization of the app-domain token record is modelled character by
character (`encodeAccessToken` / `decodeAccessToken`), matching the compact
field-ordered output `serde_json::to_string` produces for the
`AccessToken` struct of `core.rs`.
-/

/-- One Redis entry: the stored string together with the TTL it was written
with (`some n` for `SETEX key n value`, `none` for a plain `SET`).  The
store is assumed to hold only unexpired entries: expiry under Redis TTL
semantics is modelled as absence. -/
structure StoreEntry where
  value : String
  ttl : Option Nat
deriving DecidableEq

/-- The shared key/value credential store (Redis), as a snapshot of its
unexpired contents. -/
def Store : Type := String → Option StoreEntry

/-- Outcome of one of the embedded Rust functions: `Ok`, `Err`, or a panic
raised by an `.unwrap()` in the source. -/
inductive Outcome (α : Type) where
  | ok (a : α)
  | err (e : String)
  | panicked (msg : String)
deriving DecidableEq

/-- Is this outcome a Rust `Err(..)` return? -/
def Outcome.isErr {α : Type} : Outcome α → Bool
  | .err _ => true
  | _ => false

/-- Is this outcome a normal `Ok(..)` return? -/
def Outcome.isOk {α : Type} : Outcome α → Bool
  | .ok _ => true
  | _ => false

/-- Is this outcome a panic? -/
def Outcome.isPanicked {α : Type} : Outcome α → Bool
  | .panicked _ => true
  | _ => false

/-- Outcome of the HTTP exchange with the token issuer, as the source
observes it: `send().await` may fail at transport level; otherwise a
response carries a success flag (`status().is_success()`), a status text,
and the result of parsing the body via `response.json::<α>()`. -/
inductive HttpResult (α : Type) where
  | transportErr (e : String)
  | resp (success : Bool) (status : String) (body : Except String α)

/-- Does this issuer outcome fail (transport error, non-success status, or
unparseable body)? -/
def HttpResult.failsb {α : Type} : HttpResult α → Bool
  | .transportErr _ => true
  | .resp success _ body =>
      !success || (match body with | .error _ => true | .ok _ => false)

/-- Oracles for the store interactions of one embedded call: whether each
pooled-connection acquisition (`self.rdb.get().await`) succeeds, and
whether the GET resp. SET/SETEX command succeeds at transport level. -/
structure StoreOps where
  conn1Ok : Bool
  getOk : Bool
  conn2Ok : Bool
  setOk : Bool

/-- Result of running one embedded call: its outcome, the store it leaves
behind, and how many times it called the remote token issuer. -/
structure RunResult (α : Type) where
  out : Outcome α
  store : Store
  issuerCalls : Nat

/-- The panic message of `Result::unwrap` (pool acquisition and
`query_async::<()>` unwraps in the source). -/
def unwrapPanicMsg : String := "called `Result::unwrap()` on an `Err` value"

/-- `DingTalk` client state (`lib.rs`): app id, app secret, and the shared
Redis pool handle (the `reqwest` client holds no relevant state and is
omitted; the pool handle is abstracted to an identifier). -/
structure DingTalk where
  appid : String
  app_secret : String
  rdb : Nat
deriving DecidableEq

/-- `OrgApp` facade state (`organization.rs`): identifiers plus the shared
pool handle. -/
structure OrgApp where
  appid : String
  app_secret : String
  corp_id : String
  rdb : Nat
deriving DecidableEq

/-- The local `AccessToken` struct of `core.rs` (app-domain record):
serde-renamed fields `accessToken`, `refreshToken`, `corpId`, `expireIn`. -/
structure AppAccessToken where
  access_token : String
  refresh_token : String
  corp_id : String
  expire_in : Int
deriving DecidableEq

/-- The local `AccessToken` struct of `OrgApp::get_access_token` in
`organization.rs` (tenant-domain record): field `access_token` and field
`expire_in`, serde-renamed from `expires_in`. -/
structure OrgAccessToken where
  access_token : String
  expire_in : Int
deriving DecidableEq

/-! ### The serde_json wire format of the app-domain record

`core.rs` stores `serde_json::to_string(&at)` under the raw app id and
reads it back with `serde_json::from_str`.  For the `AccessToken` struct
this output is the compact JSON object with the fields in declaration
order; we model the encoder exactly and a strict parser of that shape. -/

/-- Numeric value of a decimal digit character. -/
def charVal (c : Char) : Nat := c.toNat - 48

/-- Is `c` a decimal digit character? -/
def isDig (c : Char) : Bool := 48 ≤ c.toNat && c.toNat ≤ 57

/-- The character of a decimal digit. -/
def digitChar (d : Nat) : Char := Char.ofNat (48 + d)

/-- Decimal digit characters of `n`, most significant first (fuel-indexed;
`fuel ≥ n` suffices). -/
def natCharsAux : Nat → Nat → List Char
  | 0, _ => []
  | fuel + 1, n =>
      if n = 0 then [] else natCharsAux fuel (n / 10) ++ [digitChar (n % 10)]

/-- Decimal representation of a natural number. -/
def natChars (n : Nat) : List Char :=
  if n = 0 then ['0'] else natCharsAux n n

/-- Decimal representation of an integer (as `serde_json` prints an `i32`). -/
def intChars (i : Int) : List Char :=
  if i < 0 then '-' :: natChars i.natAbs else natChars i.natAbs

/-- JSON string escaping as far as the characters of interest go: quote and
backslash are escaped with a backslash. -/
def escChars : List Char → List Char
  | [] => []
  | c :: cs =>
      if c = '\"' || c = '\\' then '\\' :: c :: escChars cs
      else c :: escChars cs

/-- Characters of the compact `serde_json` output for an `AccessToken`
value of `core.rs`. -/
def encodeChars (a : AppAccessToken) : List Char :=
  "\x7b\"accessToken\":\"".data ++ escChars a.access_token.data ++
    "\",\"refreshToken\":\"".data ++ escChars a.refresh_token.data ++
    "\",\"corpId\":\"".data ++ escChars a.corp_id.data ++
    "\",\"expireIn\":".data ++ intChars a.expire_in ++ "\x7d".data

/-- `serde_json::to_string` of the app-domain record. -/
def encodeAccessToken (a : AppAccessToken) : String := ⟨encodeChars a⟩

/-- Consume an expected literal prefix. -/
def dropLit : List Char → List Char → Option (List Char)
  | [], cs => some cs
  | _ :: _, [] => none
  | l :: ls, c :: cs => if c = l then dropLit ls cs else none

/-- Parse a JSON string body up to and including the closing quote,
undoing the backslash escapes; returns the content and the rest. -/
def parseStrBody : List Char → Option (List Char × List Char)
  | [] => none
  | c :: cs =>
      if c = '\"' then some ([], cs)
      else if c = '\\' then
        match cs with
        | [] => none
        | d :: cs2 => (parseStrBody cs2).map (fun p => (d :: p.1, p.2))
      else (parseStrBody cs).map (fun p => (c :: p.1, p.2))

/-- Value of a big-endian list of decimal digit characters. -/
def digitsVal (ds : List Char) : Nat :=
  ds.foldl (fun acc c => 10 * acc + charVal c) 0

/-- Parse a nonempty run of decimal digits; returns its value and the rest. -/
def parseNatChars (cs : List Char) : Option (Nat × List Char) :=
  if (cs.takeWhile isDig).isEmpty then none
  else some (digitsVal (cs.takeWhile isDig), cs.dropWhile isDig)

/-- Parse an optionally negated decimal integer. -/
def parseIntChars (cs : List Char) : Option (Int × List Char) :=
  match cs with
  | [] => none
  | c :: rest =>
      if c = '-' then (parseNatChars rest).map (fun p => (-(p.1 : Int), p.2))
      else (parseNatChars cs).map (fun p => ((p.1 : Int), p.2))

/-- Strict parser of the wire format `encodeChars` produces: the
`serde_json::from_str::<AccessToken>` call of `core.rs`, modelled on the
canonical shape the crate itself writes. -/
def decodeChars (cs : List Char) : Option AppAccessToken :=
  (dropLit "\x7b\"accessToken\":\"".data cs).bind (fun r1 =>
  (parseStrBody r1).bind (fun p1 =>
  (dropLit ",\"refreshToken\":\"".data p1.2).bind (fun r2 =>
  (parseStrBody r2).bind (fun p2 =>
  (dropLit ",\"corpId\":\"".data p2.2).bind (fun r3 =>
  (parseStrBody r3).bind (fun p3 =>
  (dropLit ",\"expireIn\":".data p3.2).bind (fun r4 =>
  (parseIntChars r4).bind (fun p4 =>
  if p4.2 = "\x7d".data then
    some ⟨⟨p1.1⟩, ⟨p2.1⟩, ⟨p3.1⟩, p4.1⟩
  else none))))))))

/-- `serde_json::from_str::<AccessToken>` on a stored app-domain value. -/
def decodeAccessToken (s : String) : Option AppAccessToken := decodeChars s.data

/-! ### The embedded functions -/

/-- `OrgApp::get_access_token` (`organization.rs`, tenant domain).
Control flow of the source: acquire a pooled connection
(`.unwrap()` — panics on pool failure); `GET corp_id` with errors swallowed
by `unwrap_or(None)`; on a hit return the raw stored string; on a miss POST
the client-credentials exchange; propagate transport errors; reject
non-success statuses; propagate body-parse errors; then acquire a second
connection (`.unwrap()`) and `SETEX corp_id 7200 access_token`
(`.unwrap()`); finally return the fresh token. -/
def OrgApp.get_access_token (self : OrgApp) (io : StoreOps)
    (issuer : HttpResult OrgAccessToken) (store : Store) : RunResult String :=
  if io.conn1Ok then
    let value : Option String :=
      if io.getOk then (store self.corp_id).map StoreEntry.value else none
    match value with
    | some bytes => ⟨.ok bytes, store, 0⟩
    | none =>
        match issuer with
        | .transportErr e => ⟨.err e, store, 1⟩
        | .resp success status body =>
            if success then
              match body with
              | .error e => ⟨.err e, store, 1⟩
              | .ok result =>
                  if io.conn2Ok then
                    if io.setOk then
                      ⟨.ok result.access_token,
                        fun k =>
                          if k = self.corp_id then
                            some ⟨result.access_token, some 7200⟩
                          else store k,
                        1⟩
                    else ⟨.panicked unwrapPanicMsg, store, 1⟩
                  else ⟨.panicked unwrapPanicMsg, store, 1⟩
            else
              ⟨.err ("Failed to get organization access token: " ++ status),
                store, 1⟩
  else ⟨.panicked unwrapPanicMsg, store, 0⟩

/-- `DingTalk::set_app_access_token` (`core.rs`, app domain).  Control flow
of the source: POST the authorization-code exchange first (no store access
beforehand); propagate transport errors; reject non-success statuses;
propagate body-parse errors; then acquire a pooled connection
(`.unwrap()`), `SET appid serde_json::to_string(&at)` (`.unwrap()`; the
serialization of this struct itself cannot fail), and return the corp id
of the response. -/
def DingTalk.set_app_access_token (self : DingTalk) (_code : String)
    (io : StoreOps) (issuer : HttpResult AppAccessToken) (store : Store) :
    RunResult String :=
  match issuer with
  | .transportErr e => ⟨.err e, store, 1⟩
  | .resp success status body =>
      if success then
        match body with
        | .error e => ⟨.err e, store, 1⟩
        | .ok at1 =>
            if io.conn1Ok then
              if io.setOk then
                ⟨.ok at1.corp_id,
                  fun k =>
                    if k = self.appid then
                      some ⟨encodeAccessToken at1, none⟩
                    else store k,
                  1⟩
              else ⟨.panicked unwrapPanicMsg, store, 1⟩
            else ⟨.panicked unwrapPanicMsg, store, 1⟩
      else ⟨.err ("Failed to get access token: " ++ status), store, 1⟩

/-- The panic message of `Option::unwrap`, raised by
`serde_json::from_str(..).unwrap()` when the stored bytes do not parse.
(In the source this is a `Result::unwrap`; the distinction is immaterial,
we record that a panic with the serde unwrap happens.) -/
def serdePanicMsg : String := "serde_json::from_str unwrap failed"

/-- `DingTalk::get_app_access_token` (`core.rs`, app domain, read-only).
Control flow of the source: acquire a pooled connection (`.unwrap()` —
panics on pool failure); `GET appid` with errors swallowed by
`unwrap_or(None)`; on a hit, `serde_json::from_str(..).unwrap()` (panics on
malformed bytes) and return the `access_token` field; on a miss return
`Err("Failed to get access token")`.  The issuance path is never invoked
and nothing is written. -/
def DingTalk.get_app_access_token (self : DingTalk) (io : StoreOps)
    (store : Store) : RunResult String :=
  if io.conn1Ok then
    let value : Option String :=
      if io.getOk then (store self.appid).map StoreEntry.value else none
    match value with
    | some bytes =>
        match decodeAccessToken bytes with
        | some v => ⟨.ok v.access_token, store, 0⟩
        | none => ⟨.panicked serdePanicMsg, store, 0⟩
    | none => ⟨.err "Failed to get access token", store, 0⟩
  else ⟨.panicked unwrapPanicMsg, store, 0⟩

/-- `OrgApp::new` (`organization.rs`): plain construction, stores the
supplied identifiers and pool handle (and a fresh `reqwest::Client`,
which holds no relevant state); no store or network access. -/
def OrgApp.new (appid app_secret corp_id : String) (rdb : Nat) : OrgApp :=
  ⟨appid, app_secret, corp_id, rdb⟩

/-- `DingTalk::set_corp_id` (`organization.rs`): delegates to `OrgApp::new`
with the client's own credentials and pool handle. -/
def DingTalk.set_corp_id (self : DingTalk) (corp_id : String) : OrgApp :=
  OrgApp.new self.appid self.app_secret corp_id self.rdb

/-- The empty store. -/
def emptyStore : Store := fun _ => none

/-- All store interactions succeed. -/
def allOk : StoreOps := ⟨true, true, true, true⟩

/-! ### Roundtrip of the wire format

`core.rs` writes `serde_json::to_string(&at)` and later parses the same
bytes back with `serde_json::from_str`; the lemmas below show the embedded
codec agrees on every record. -/

theorem dropLit_append (l r : List Char) : dropLit l (l ++ r) = some r := by
  induction l with
  | nil => rfl
  | cons c cs ih => simpa [dropLit] using ih


theorem parseStrBody_round (s r : List Char) :
    parseStrBody (escChars s ++ '\"' :: r) = some (s, r) := by
  induction s with
  | nil =>
      rw [escChars, List.nil_append, parseStrBody.eq_def]
      simp
  | cons c cs ih =>
      by_cases h1 : c = '\"'
      · rw [escChars, if_pos (by simp [h1]), List.cons_append, List.cons_append,
          parseStrBody.eq_def]
        simp [ih]
      · by_cases h2 : c = '\\'
        · rw [escChars, if_pos (by simp [h2]), List.cons_append, List.cons_append,
            parseStrBody.eq_def]
          simp [ih]
        · rw [escChars, if_neg (by simp [h1, h2]), List.cons_append,
            parseStrBody.eq_def]
          simp [h1, h2, ih]

theorem charVal_digitChar (d : Nat) (h : d < 10) : charVal (digitChar d) = d := by
  interval_cases d <;> rfl

theorem isDig_digitChar (d : Nat) (h : d < 10) : isDig (digitChar d) = true := by
  interval_cases d <;> rfl

theorem natCharsAux_zero (fuel : Nat) : natCharsAux fuel 0 = [] := by
  cases fuel <;> simp [natCharsAux]

theorem natCharsAux_digits (fuel : Nat) :
    ∀ n, ∀ c ∈ natCharsAux fuel n, isDig c = true := by
  induction fuel with
  | zero => intro n c hc; simp [natCharsAux] at hc
  | succ f ih =>
      intro n c hc
      rw [natCharsAux] at hc
      by_cases h : n = 0
      · simp [h] at hc
      · rw [if_neg h] at hc
        rcases List.mem_append.mp hc with h1 | h1
        · exact ih _ c h1
        · rcases List.mem_singleton.mp h1 with rfl
          exact isDig_digitChar _ (Nat.mod_lt _ (by norm_num))

theorem digitsVal_append (ds : List Char) (c : Char) :
    digitsVal (ds ++ [c]) = 10 * digitsVal ds + charVal c := by
  simp [digitsVal, List.foldl_append]

theorem natCharsAux_val (fuel : Nat) :
    ∀ n, n ≠ 0 → n ≤ fuel → digitsVal (natCharsAux fuel n) = n := by
  induction fuel with
  | zero => intro n h hle; omega
  | succ f ih =>
      intro n h hle
      rw [natCharsAux, if_neg h, digitsVal_append,
        charVal_digitChar _ (Nat.mod_lt _ (by norm_num))]
      by_cases h10 : n / 10 = 0
      · rw [h10, natCharsAux_zero]
        have : digitsVal [] = 0 := rfl
        rw [this]
        omega
      · rw [ih (n / 10) h10 (by omega)]
        omega

theorem natChars_digits (n : Nat) : ∀ c ∈ natChars n, isDig c = true := by
  intro c hc
  rw [natChars] at hc
  by_cases h : n = 0
  · rw [if_pos h] at hc
    rcases List.mem_singleton.mp hc with rfl
    rfl
  · rw [if_neg h] at hc
    exact natCharsAux_digits n n c hc

theorem natChars_val (n : Nat) : digitsVal (natChars n) = n := by
  by_cases h : n = 0
  · subst h; rfl
  · rw [natChars, if_neg h]
    exact natCharsAux_val n n h le_rfl

theorem natChars_ne_nil (n : Nat) : natChars n ≠ [] := by
  by_cases h : n = 0
  · simp [natChars, h]
  · rw [natChars, if_neg h]
    cases n with
    | zero => exact absurd rfl h
    | succ f =>
        rw [natCharsAux, if_neg h]
        simp

theorem takeWhile_digits_append (ds r : List Char)
    (h : ∀ c ∈ ds, isDig c = true)
    (hr : ∀ c, r.head? = some c → isDig c = false) :
    (ds ++ r).takeWhile isDig = ds ∧ (ds ++ r).dropWhile isDig = r := by
  induction ds with
  | nil =>
      cases r with
      | nil => simp
      | cons c cs =>
          have hc := hr c rfl
          simp [List.takeWhile_cons, List.dropWhile_cons, hc]
  | cons d ds ih =>
      have hd : isDig d = true := h d (List.mem_cons_self _ _)
      obtain ⟨h1, h2⟩ := ih (fun c hc => h c (List.mem_cons_of_mem _ hc))
      simp [List.takeWhile_cons, List.dropWhile_cons, hd, h1, h2]

theorem parseNatChars_round (n : Nat) (r : List Char)
    (hr : ∀ c, r.head? = some c → isDig c = false) :
    parseNatChars (natChars n ++ r) = some (n, r) := by
  obtain ⟨ht, hd⟩ := takeWhile_digits_append (natChars n) r (natChars_digits n) hr
  unfold parseNatChars
  rw [ht, hd, if_neg (by simp [List.isEmpty_iff, natChars_ne_nil]), natChars_val]

theorem parseIntChars_round (i : Int) (r : List Char)
    (hr : ∀ c, r.head? = some c → isDig c = false) :
    parseIntChars (intChars i ++ r) = some (i, r) := by
  by_cases h : i < 0
  · unfold intChars
    rw [if_pos h, List.cons_append, parseIntChars.eq_def]
    simp only [reduceIte, parseNatChars_round _ _ hr, Option.map_some']
    have h2 : -(i.natAbs : Int) = i := by omega
    rw [h2]
  · unfold intChars
    rw [if_neg h]
    obtain ⟨c, cs, hc⟩ : ∃ c cs, natChars i.natAbs = c :: cs := by
      cases hnc : natChars i.natAbs with
      | nil => exact absurd hnc (natChars_ne_nil _)
      | cons c cs => exact ⟨c, cs, rfl⟩
    have hdig : isDig c = true := natChars_digits _ c (hc ▸ List.mem_cons_self c cs)
    have hne : c ≠ '-' := by
      intro he
      rw [he] at hdig
      exact absurd hdig (by decide)
    rw [hc, List.cons_append]
    show (if c = '-' then (parseNatChars (cs ++ r)).map (fun p => (-(p.1 : Int), p.2))
      else (parseNatChars (c :: (cs ++ r))).map (fun p => ((p.1 : Int), p.2))) = some (i, r)
    rw [if_neg hne, ← List.cons_append, ← hc, parseNatChars_round _ _ hr]
    simp only [Option.map_some']
    have h2 : (i.natAbs : Int) = i := by omega
    rw [h2]

theorem decodeChars_encodeChars (a : AppAccessToken) :
    decodeChars (encodeChars a) = some a := by
  have hr : ∀ c : Char, (['\x7d'] : List Char).head? = some c → isDig c = false := by
    intro c hc
    cases hc
    rfl
  simp only [encodeChars, decodeChars, List.append_assoc, List.cons_append,
    List.nil_append]
  simp only [dropLit, reduceIte, Option.some_bind, parseStrBody_round,
    parseIntChars_round _ _ hr]

theorem decode_encode (a : AppAccessToken) :
    decodeAccessToken (encodeAccessToken a) = some a := by
  rw [decodeAccessToken, encodeAccessToken]
  exact decodeChars_encodeChars a

/-! ### Shared concrete objects for witnesses and counterexamples -/

/-- A store holding a tenant-domain token under key `"corp1"`. -/
def hitStore : Store :=
  fun k => if k = "corp1" then some ⟨"tok1", some 100⟩ else none

/-- A store whose app-domain slot `"app1"` holds a raw, non-JSON string. -/
def rawStore : Store :=
  fun k => if k = "app1" then some ⟨"tok1", none⟩ else none

/-- A concrete app-domain issuer response record. -/
def appRecord : AppAccessToken := ⟨"tokA", "refA", "corpX", 7⟩

/-! ### The claims -/

/-- Claim C3: cache hit — when the Store holds an (unexpired) value under
the tenant subject key, `OrgApp::get_access_token` returns exactly that
value, calls the Issuer zero times, and leaves the Store unchanged. -/
theorem C3_cache_hit (app : OrgApp) (io : StoreOps)
    (issuer : HttpResult OrgAccessToken) (store : Store) (e : StoreEntry)
    (h1 : io.conn1Ok = true) (h2 : io.getOk = true)
    (h3 : store app.corp_id = some e) :
    OrgApp.get_access_token app io issuer store = ⟨.ok e.value, store, 0⟩ := by
  unfold OrgApp.get_access_token
  simp [h1, h2, h3]

/-- Witness for C3 at a concrete store holding `"corp1" -> "tok1"`. -/
theorem C3_cache_hit_witness :
    OrgApp.get_access_token ⟨"app1", "sec", "corp1", 0⟩ allOk
        (.transportErr "unused") hitStore = ⟨.ok "tok1", hitStore, 0⟩ :=
  C3_cache_hit ⟨"app1", "sec", "corp1", 0⟩ allOk (.transportErr "unused")
    hitStore ⟨"tok1", some 100⟩ rfl rfl (by decide)

/-- Claim C4: cache miss triggers issuance — when the tenant subject key is
absent, `OrgApp::get_access_token` calls the Issuer exactly once, returns
the token the Issuer produced, and a subsequent read of the same key in the
resulting store yields that token. -/
theorem C4_cache_miss_issues (app : OrgApp) (io : StoreOps) (st : String)
    (result : OrgAccessToken) (store : Store)
    (h1 : io.conn1Ok = true) (h2 : io.conn2Ok = true) (h3 : io.setOk = true)
    (habs : store app.corp_id = none) :
    (OrgApp.get_access_token app io (.resp true st (.ok result)) store).out
        = .ok result.access_token ∧
      (OrgApp.get_access_token app io (.resp true st (.ok result)) store).issuerCalls
        = 1 ∧
      (OrgApp.get_access_token app io (.resp true st (.ok result)) store).store
          app.corp_id
        = some ⟨result.access_token, some 7200⟩ := by
  unfold OrgApp.get_access_token
  cases hget : io.getOk <;> simp [h1, h2, h3, habs, hget]

/-- Witness for C4: the spec's own example, receiving `("tok2", ttl 7200)`
from the Issuer on an empty store. -/
theorem C4_cache_miss_issues_witness :
    (OrgApp.get_access_token ⟨"app1", "sec", "corp1", 0⟩ allOk
        (.resp true "200 OK" (.ok ⟨"tok2", 7200⟩)) emptyStore).out = .ok "tok2" ∧
      (OrgApp.get_access_token ⟨"app1", "sec", "corp1", 0⟩ allOk
        (.resp true "200 OK" (.ok ⟨"tok2", 7200⟩)) emptyStore).issuerCalls = 1 ∧
      (OrgApp.get_access_token ⟨"app1", "sec", "corp1", 0⟩ allOk
        (.resp true "200 OK" (.ok ⟨"tok2", 7200⟩)) emptyStore).store "corp1"
        = some ⟨"tok2", some 7200⟩ :=
  C4_cache_miss_issues ⟨"app1", "sec", "corp1", 0⟩ allOk "200 OK"
    ⟨"tok2", 7200⟩ emptyStore rfl rfl rfl rfl

/-- Claim C7: read-only app-domain lookup does not issue — when the
app-domain key is absent, `DingTalk::get_app_access_token` returns an
error, never touches the Issuer, and writes nothing. -/
theorem C7_readonly_lookup (dt : DingTalk) (io : StoreOps) (store : Store)
    (h1 : io.conn1Ok = true) (habs : store dt.appid = none) :
    DingTalk.get_app_access_token dt io store
      = ⟨.err "Failed to get access token", store, 0⟩ := by
  unfold DingTalk.get_app_access_token
  cases hget : io.getOk <;> simp [h1, habs, hget]

/-- Witness for C7 on the empty store. -/
theorem C7_readonly_lookup_witness :
    DingTalk.get_app_access_token ⟨"app1", "sec", 0⟩ allOk emptyStore
      = ⟨.err "Failed to get access token", emptyStore, 0⟩ :=
  C7_readonly_lookup ⟨"app1", "sec", 0⟩ allOk emptyStore rfl rfl

/-- Claim C8: constructing the tenant facade is pure — `OrgApp::new` and
`DingTalk::set_corp_id` build a value holding exactly the supplied
identifiers and the shared pool handle; being pure Lean functions of their
arguments alone, they touch neither the Store nor the network. -/
theorem C8_construction_pure (appid app_secret corp_id : String) (rdb : Nat)
    (dt : DingTalk) (corp : String) :
    OrgApp.new appid app_secret corp_id rdb
        = ⟨appid, app_secret, corp_id, rdb⟩ ∧
      DingTalk.set_corp_id dt corp
        = ⟨dt.appid, dt.app_secret, corp, dt.rdb⟩ :=
  ⟨rfl, rfl⟩

/-- Claim C1, counterexample: a successful tenant issuance whose response
declares `expires_in = 3600` is written to the Store with TTL 7200 — the
source passes the literal `7200` to `SETEX` and ignores the declared
lifetime, so the record's TTL is not the Issuer-declared one. -/
theorem C1_ttl_counterexample :
    (OrgApp.get_access_token ⟨"app1", "sec", "corp1", 0⟩ allOk
        (.resp true "200 OK" (.ok ⟨"tok2", 3600⟩)) emptyStore).out = .ok "tok2" ∧
      (OrgApp.get_access_token ⟨"app1", "sec", "corp1", 0⟩ allOk
        (.resp true "200 OK" (.ok ⟨"tok2", 3600⟩)) emptyStore).store "corp1"
        = some ⟨"tok2", some 7200⟩ ∧
      (7200 : Nat) ≠ 3600 := by
  decide

/-- Claim C1 as amended: every successful tenant-domain issuance writes the
token record with the fixed TTL 7200 seconds, whatever lifetime the Issuer
declared in `expires_in`. -/
theorem C1_fixed_ttl (app : OrgApp) (io : StoreOps) (st : String)
    (result : OrgAccessToken) (store : Store)
    (h1 : io.conn1Ok = true) (h2 : io.conn2Ok = true) (h3 : io.setOk = true)
    (habs : store app.corp_id = none) :
    (OrgApp.get_access_token app io (.resp true st (.ok result)) store).store
        app.corp_id
      = some ⟨result.access_token, some 7200⟩ := by
  unfold OrgApp.get_access_token
  cases hget : io.getOk <;> simp [h1, h2, h3, habs, hget]

/-- Witness for the amended C1, with a declared lifetime of 3600 still
stored under TTL 7200. -/
theorem C1_fixed_ttl_witness :
    (OrgApp.get_access_token ⟨"app1", "sec", "corp1", 0⟩ allOk
        (.resp true "200 OK" (.ok ⟨"tok2", 3600⟩)) emptyStore).store "corp1"
      = some ⟨"tok2", some 7200⟩ :=
  C1_fixed_ttl ⟨"app1", "sec", "corp1", 0⟩ allOk "200 OK" ⟨"tok2", 3600⟩
    emptyStore rfl rfl rfl rfl

/-- Claim C2, evaluated at the failing input (app id = corp id = `"app1"`):
both domains key the Store by the raw identifier, so after a successful
app-domain exchange the tenant-domain read on the colliding corp id
treats the app-domain JSON record as a cache hit and returns it verbatim
as if it were a tenant token, with zero Issuer calls — the two domains do
not have disjoint derived keys and one domain's record is observable
through the other's read. -/
theorem C2_key_collision :
    ((DingTalk.set_app_access_token ⟨"app1", "sec", 0⟩ "code" allOk
          (.resp true "200 OK" (.ok appRecord)) emptyStore).store "app1"
        = some ⟨encodeAccessToken appRecord, none⟩) ∧
      ((OrgApp.get_access_token ⟨"app1", "sec", "app1", 0⟩ allOk
            (.transportErr "unused")
            (DingTalk.set_app_access_token ⟨"app1", "sec", 0⟩ "code" allOk
              (.resp true "200 OK" (.ok appRecord)) emptyStore).store).out
        = .ok (encodeAccessToken appRecord)) ∧
      ((OrgApp.get_access_token ⟨"app1", "sec", "app1", 0⟩ allOk
            (.transportErr "unused")
            (DingTalk.set_app_access_token ⟨"app1", "sec", 0⟩ "code" allOk
              (.resp true "200 OK" (.ok appRecord)) emptyStore).store).issuerCalls
        = 0) := by
  decide

/-- Claim C10: `DingTalk::get_app_access_token` is partial on malformed
cache contents — if the stored value under the app id does not parse as the
serialized token record the function panics (the `serde_json::from_str`
result is unwrapped), and it returns `Ok` exactly when the value parses,
yielding that record's `access_token` field. -/
theorem C10_malformed_cache (dt : DingTalk) (io : StoreOps) (store : Store)
    (e : StoreEntry)
    (h1 : io.conn1Ok = true) (h2 : io.getOk = true)
    (hsome : store dt.appid = some e) :
    (decodeAccessToken e.value = none →
        DingTalk.get_app_access_token dt io store
          = ⟨.panicked serdePanicMsg, store, 0⟩) ∧
      (∀ v, decodeAccessToken e.value = some v →
        DingTalk.get_app_access_token dt io store
          = ⟨.ok v.access_token, store, 0⟩) := by
  constructor
  · intro hdec
    unfold DingTalk.get_app_access_token
    simp [h1, h2, hsome, hdec]
  · intro v hdec
    unfold DingTalk.get_app_access_token
    simp [h1, h2, hsome, hdec]

/-- Witness for C10: the raw string `"tok1"` is not a serialized record, so
the read panics. -/
theorem C10_malformed_cache_witness :
    DingTalk.get_app_access_token ⟨"app1", "sec", 0⟩ allOk rawStore
      = ⟨.panicked serdePanicMsg, rawStore, 0⟩ :=
  (C10_malformed_cache ⟨"app1", "sec", 0⟩ allOk rawStore ⟨"tok1", none⟩
      rfl rfl (by decide)).1 (by decide)

/-- Claim C5: failure is never cached — whenever the Issuer call fails
(transport error, non-success status, or unparseable body), both the
tenant-domain acquisition and the app-domain exchange return an error and
leave the Store exactly as it was. -/
theorem C5_failure_not_cached (app : OrgApp) (io : StoreOps)
    (issuerT : HttpResult OrgAccessToken) (store : Store)
    (dt : DingTalk) (code : String) (io2 : StoreOps)
    (issuerA : HttpResult AppAccessToken) (store2 : Store)
    (h1 : io.conn1Ok = true) (habs : store app.corp_id = none)
    (hfT : issuerT.failsb = true) (hfA : issuerA.failsb = true) :
    ((OrgApp.get_access_token app io issuerT store).out.isErr = true ∧
        (OrgApp.get_access_token app io issuerT store).store = store) ∧
      ((DingTalk.set_app_access_token dt code io2 issuerA store2).out.isErr
          = true ∧
        (DingTalk.set_app_access_token dt code io2 issuerA store2).store
          = store2) := by
  constructor
  · unfold OrgApp.get_access_token
    rcases issuerT with e | ⟨succ, st, body⟩
    · cases hget : io.getOk <;> simp [h1, habs, hget, Outcome.isErr]
    · cases succ
      · cases hget : io.getOk <;> simp [h1, habs, hget, Outcome.isErr]
      · rcases body with e | v
        · cases hget : io.getOk <;> simp [h1, habs, hget, Outcome.isErr]
        · simp [HttpResult.failsb] at hfT
  · unfold DingTalk.set_app_access_token
    rcases issuerA with e | ⟨succ, st, body⟩
    · simp [Outcome.isErr]
    · cases succ
      · simp [Outcome.isErr]
      · rcases body with e | v
        · simp [Outcome.isErr]
        · simp [HttpResult.failsb] at hfA

/-- Witness for C5 at a concrete rejected exchange (HTTP 403 on the tenant
side, an unparseable body on the app side) over concrete stores. -/
theorem C5_failure_not_cached_witness :
    ((OrgApp.get_access_token ⟨"app1", "sec", "corp1", 0⟩ allOk
          (.resp false "403 Forbidden" (.error "forbidden"))
          emptyStore).out.isErr = true ∧
        (OrgApp.get_access_token ⟨"app1", "sec", "corp1", 0⟩ allOk
          (.resp false "403 Forbidden" (.error "forbidden")) emptyStore).store
          = emptyStore) ∧
      ((DingTalk.set_app_access_token ⟨"app1", "sec", 0⟩ "code" allOk
            (.resp true "200 OK" (.error "missing field"))
            rawStore).out.isErr = true ∧
        (DingTalk.set_app_access_token ⟨"app1", "sec", 0⟩ "code" allOk
          (.resp true "200 OK" (.error "missing field")) rawStore).store
          = rawStore) :=
  C5_failure_not_cached ⟨"app1", "sec", "corp1", 0⟩ allOk
    (.resp false "403 Forbidden" (.error "forbidden")) emptyStore
    ⟨"app1", "sec", 0⟩ "code" allOk
    (.resp true "200 OK" (.error "missing field")) rawStore
    rfl rfl (by decide) (by decide)

/-- Claim C9: on a successful app-domain exchange,
`DingTalk::set_app_access_token` returns the corp id carried in the
Issuer's response (not the access token), and the access token itself is
afterwards reachable through the Store via
`DingTalk::get_app_access_token`. -/
theorem C9_returns_corp_id (dt : DingTalk) (code : String) (io : StoreOps)
    (st : String) (at1 : AppAccessToken) (store : Store) (c2 s2 : Bool)
    (h1 : io.conn1Ok = true) (h2 : io.setOk = true) :
    (DingTalk.set_app_access_token dt code io (.resp true st (.ok at1))
          store).out
        = .ok at1.corp_id ∧
      (DingTalk.get_app_access_token dt ⟨true, true, c2, s2⟩
          (DingTalk.set_app_access_token dt code io (.resp true st (.ok at1))
            store).store).out
        = .ok at1.access_token := by
  unfold DingTalk.set_app_access_token DingTalk.get_app_access_token
  simp [h1, h2, decode_encode]

/-- Witness for C9 at a concrete exchange: the call returns `"corpX"`, and
the token `"tokA"` is then readable from the Store. -/
theorem C9_returns_corp_id_witness :
    (DingTalk.set_app_access_token ⟨"app1", "sec", 0⟩ "code" allOk
          (.resp true "200 OK" (.ok appRecord)) emptyStore).out
        = .ok "corpX" ∧
      (DingTalk.get_app_access_token ⟨"app1", "sec", 0⟩ ⟨true, true, true, true⟩
          (DingTalk.set_app_access_token ⟨"app1", "sec", 0⟩ "code" allOk
            (.resp true "200 OK" (.ok appRecord)) emptyStore).store).out
        = .ok "tokA" :=
  C9_returns_corp_id ⟨"app1", "sec", 0⟩ "code" allOk "200 OK" appRecord
    emptyStore true true rfl rfl

/-- Claim C6, counterexample: store failures are not surfaced as typed
error results — a failed pool-connection acquisition makes the tenant
acquisition panic (an unwrap, not an `Err`), and a failed Store `GET` is
silently swallowed (`unwrap_or(None)`): even with a token cached under the
key, the call falls through to the issuance path and succeeds, surfacing
no failure at all. -/
theorem C6_store_failure_counterexample :
    ((OrgApp.get_access_token ⟨"app1", "sec", "corp1", 0⟩ ⟨false, true, true, true⟩
          (.transportErr "unused") emptyStore).out.isPanicked = true) ∧
      ((OrgApp.get_access_token ⟨"app1", "sec", "corp1", 0⟩ ⟨false, true, true, true⟩
          (.transportErr "unused") emptyStore).out.isErr = false) ∧
      ((OrgApp.get_access_token ⟨"app1", "sec", "corp1", 0⟩ ⟨true, false, true, true⟩
          (.resp true "200 OK" (.ok ⟨"tok2", 7200⟩)) hitStore).out
        = .ok "tok2") ∧
      ((OrgApp.get_access_token ⟨"app1", "sec", "corp1", 0⟩ ⟨true, false, true, true⟩
          (.resp true "200 OK" (.ok ⟨"tok2", 7200⟩)) hitStore).issuerCalls
        = 1) := by
  decide

/-- Claim C6 as amended: Issuer failures are surfaced synchronously as
typed error results with no retry, but Store failures are not typed
errors — a failed pool-connection acquisition panics, a failed Store write
(`SETEX`) panics, and a failed Store read is treated as a cache miss and
falls back to the issuance path; likewise the app-domain exchange panics
on connection or write failure. -/
theorem C6_failure_surfacing (app : OrgApp) (g c2 s2 : Bool) (st : String)
    (result : OrgAccessToken) (store : Store)
    (issuerF : HttpResult OrgAccessToken)
    (dt : DingTalk) (code st2 : String) (at2 : AppAccessToken) (store2 : Store)
    (habs : store app.corp_id = none)
    (hfail : issuerF.failsb = true) :
    ((OrgApp.get_access_token app ⟨false, g, c2, s2⟩
          (.resp true st (.ok result)) store).out
        = .panicked unwrapPanicMsg) ∧
      ((OrgApp.get_access_token app ⟨true, false, true, true⟩
          (.resp true st (.ok result)) store).out
        = .ok result.access_token) ∧
      ((OrgApp.get_access_token app ⟨true, false, true, true⟩
          (.resp true st (.ok result)) store).issuerCalls = 1) ∧
      ((OrgApp.get_access_token app ⟨true, g, false, s2⟩
          (.resp true st (.ok result)) store).out
        = .panicked unwrapPanicMsg) ∧
      ((OrgApp.get_access_token app ⟨true, g, true, false⟩
          (.resp true st (.ok result)) store).out
        = .panicked unwrapPanicMsg) ∧
      ((OrgApp.get_access_token app ⟨true, g, c2, s2⟩ issuerF store).out.isErr
        = true) ∧
      ((DingTalk.set_app_access_token dt code ⟨false, g, c2, s2⟩
          (.resp true st2 (.ok at2)) store2).out
        = .panicked unwrapPanicMsg) ∧
      ((DingTalk.set_app_access_token dt code ⟨true, g, c2, false⟩
          (.resp true st2 (.ok at2)) store2).out
        = .panicked unwrapPanicMsg) := by
  refine ⟨?_, ?_, ?_, ?_, ?_, ?_, ?_, ?_⟩
  · unfold OrgApp.get_access_token
    simp
  · unfold OrgApp.get_access_token
    simp
  · unfold OrgApp.get_access_token
    simp
  · unfold OrgApp.get_access_token
    cases g <;> simp [habs]
  · unfold OrgApp.get_access_token
    cases g <;> simp [habs]
  · unfold OrgApp.get_access_token
    rcases issuerF with e | ⟨succ, stF, body⟩
    · cases g <;> simp [habs, Outcome.isErr]
    · cases succ
      · cases g <;> simp [habs, Outcome.isErr]
      · rcases body with e | v
        · cases g <;> simp [habs, Outcome.isErr]
        · simp [HttpResult.failsb] at hfail
  · unfold DingTalk.set_app_access_token
    simp
  · unfold DingTalk.set_app_access_token
    simp

/-- Witness for the amended C6 at concrete inputs (empty store, HTTP 500 as
the failing issuer response). -/
theorem C6_failure_surfacing_witness :
    ((OrgApp.get_access_token ⟨"app1", "sec", "corp1", 0⟩ ⟨false, true, true, true⟩
          (.resp true "200 OK" (.ok ⟨"tok2", 7200⟩)) emptyStore).out
        = .panicked unwrapPanicMsg) ∧
      ((OrgApp.get_access_token ⟨"app1", "sec", "corp1", 0⟩ ⟨true, false, true, true⟩
          (.resp true "200 OK" (.ok ⟨"tok2", 7200⟩)) emptyStore).out
        = .ok "tok2") ∧
      ((OrgApp.get_access_token ⟨"app1", "sec", "corp1", 0⟩ ⟨true, false, true, true⟩
          (.resp true "200 OK" (.ok ⟨"tok2", 7200⟩)) emptyStore).issuerCalls = 1) ∧
      ((OrgApp.get_access_token ⟨"app1", "sec", "corp1", 0⟩ ⟨true, true, false, true⟩
          (.resp true "200 OK" (.ok ⟨"tok2", 7200⟩)) emptyStore).out
        = .panicked unwrapPanicMsg) ∧
      ((OrgApp.get_access_token ⟨"app1", "sec", "corp1", 0⟩ ⟨true, true, true, false⟩
          (.resp true "200 OK" (.ok ⟨"tok2", 7200⟩)) emptyStore).out
        = .panicked unwrapPanicMsg) ∧
      ((OrgApp.get_access_token ⟨"app1", "sec", "corp1", 0⟩ ⟨true, true, true, true⟩
          (.resp false "500 Internal Server Error" (.error "server error"))
          emptyStore).out.isErr = true) ∧
      ((DingTalk.set_app_access_token ⟨"app1", "sec", 0⟩ "code" ⟨false, true, true, true⟩
          (.resp true "200 OK" (.ok appRecord)) emptyStore).out
        = .panicked unwrapPanicMsg) ∧
      ((DingTalk.set_app_access_token ⟨"app1", "sec", 0⟩ "code" ⟨true, true, true, false⟩
          (.resp true "200 OK" (.ok appRecord)) emptyStore).out
        = .panicked unwrapPanicMsg) :=
  C6_failure_surfacing ⟨"app1", "sec", "corp1", 0⟩ true true true "200 OK"
    ⟨"tok2", 7200⟩ emptyStore
    (.resp false "500 Internal Server Error" (.error "server error"))
    ⟨"app1", "sec", 0⟩ "code" "200 OK" appRecord emptyStore
    rfl (by decide)
